import Mathlib

/-!
Shallow embedding of `src/patches/kaggle_gcp.py` (a credential-and-routing
broker for BigQuery / GCS / AutoML clients inside a Kaggle kernel) and proofs
about its routing, refresh, parsing, transport and patch-guard logic.

Python values are modelled as follows: machine-level strings stay `String`,
`None`-able values become `Option`, Python booleans become `Bool`, keyword
arguments are modelled through their `kwargs.get` views (`Option`), raised
exceptions become explicit outcome constructors, and every `print` / `Log`
side effect is collected into explicit `printed` / `logged` lists.
-/

/-- Modelled from the spec: the `GcpTarget` enumeration lives in the external
`kaggle_secrets` module (not under `src/`); the spec describes it as an
enumerated value identifying an external service, each carrying a display
name used in diagnostics.  The three members and their use are fixed by
`src/patches/kaggle_gcp.py` (lines 37-44 and 60-65). -/
inductive GcpTarget
  | BIGQUERY
  | GCS
  | AUTOML
deriving DecidableEq

/-- Modelled from the spec: the display name (`target.service`) carried by
each target, used in user-facing diagnostics. -/
def GcpTarget.service : GcpTarget → String
  | .BIGQUERY => "BigQuery"
  | .GCS => "Google Cloud Storage"
  | .AUTOML => "Cloud AutoML"

/-- `KernelIntegrations`: the integration registry.  The Python class stores a
dict used only through key membership (`self.integrations[target] = True`,
`target in self.integrations`); its key set is modelled as a duplicate-free
list. -/
structure KernelIntegrations where
  integrations : List GcpTarget
deriving DecidableEq

/-- `KernelIntegrations.add_integration`: `self.integrations[target] = True`
(dict key insertion; a no-op on the key set when the key is present). -/
def KernelIntegrations.add_integration (k : KernelIntegrations) (target : GcpTarget) :
    KernelIntegrations :=
  if target ∈ k.integrations then k else { integrations := k.integrations ++ [target] }

/-- `KernelIntegrations.has_integration`: `target in self.integrations`. -/
def KernelIntegrations.has_integration (k : KernelIntegrations) (target : GcpTarget) : Bool :=
  decide (target ∈ k.integrations)

/-- `KernelIntegrations.has_bigquery`. -/
def KernelIntegrations.has_bigquery (k : KernelIntegrations) : Bool :=
  k.has_integration GcpTarget.BIGQUERY

/-- `KernelIntegrations.has_gcs`. -/
def KernelIntegrations.has_gcs (k : KernelIntegrations) : Bool :=
  k.has_integration GcpTarget.GCS

/-- `KernelIntegrations.has_automl`. -/
def KernelIntegrations.has_automl (k : KernelIntegrations) : Bool :=
  k.has_integration GcpTarget.AUTOML

/-- Python `str.upper()` (ASCII, which is all the enum lookup needs). -/
def py_upper (s : String) : String := ⟨s.data.map Char.toUpper⟩

/-- Splitting a character list on a separator character, Python style: the
list of (possibly empty) chunks between separators. -/
def split_chars (sep : Char) : List Char → List Char → List (List Char)
  | [], acc => [acc]
  | c :: cs, acc =>
      if c = sep then acc :: split_chars sep cs []
      else split_chars sep cs (acc ++ [c])

/-- Python `s.split(sep)` for a one-character separator, as used by
`kernel_integrations_var.split(':')`. -/
def py_split (s : String) (sep : Char) : List String :=
  (split_chars sep s.data []).map (fun cs => ⟨cs⟩)

/-- `GcpTarget[integration.upper()]`: Python `Enum` lookup by member name,
returning `none` where Python raises `KeyError`. -/
def parseTarget (integration : String) : Option GcpTarget :=
  match py_upper integration with
  | "BIGQUERY" => some GcpTarget.BIGQUERY
  | "GCS" => some GcpTarget.GCS
  | "AUTOML" => some GcpTarget.AUTOML
  | _ => none

/-- The `Log.error(f"Unknown integration target: {e}")` message; `e` is the
`KeyError` carrying the upper-cased token, which Python renders in quotes. -/
def unknown_integration_message (integration : String) : String :=
  "Unknown integration target: \x27" ++ py_upper integration ++ "\x27"

/-- Result of `get_integrations()`: the registry plus the `Log.error` lines
emitted for unknown tokens. -/
structure GetIntegrationsResult where
  registry : KernelIntegrations
  errors : List String
deriving DecidableEq

/-- One iteration of the `for integration in kernel_integrations_var.split(':')`
loop in `get_integrations`. -/
def integrations_step (acc : GetIntegrationsResult) (integration : String) :
    GetIntegrationsResult :=
  match parseTarget integration with
  | some target => { acc with registry := acc.registry.add_integration target }
  | none => { acc with errors := acc.errors ++ [unknown_integration_message integration] }

/-- `get_integrations()`: reads `KAGGLE_KERNEL_INTEGRATIONS` (passed here as
`envVar`), returns an empty registry when the variable is absent, otherwise
splits on `:` and folds each token through the enum lookup, logging and
skipping unknown tokens. -/
def get_integrations (envVar : Option String) : GetIntegrationsResult :=
  match envVar with
  | none => { registry := { integrations := [] }, errors := [] }
  | some raw => (py_split raw ':').foldl integrations_step
      { registry := { integrations := [] }, errors := [] }

/-- `RefreshError('...') from e`: message plus the preserved original cause. -/
structure RefreshError where
  message : String
  cause : String
deriving DecidableEq

/-- Outcome of one call to the token vault (`UserSecretsClient`) from inside
`KaggleKernelCredentials.refresh`: a `(token, expiry)` pair on success, a
`ConnectionError`, or any other exception. -/
inductive VaultResult
  | success (token : String) (expiry : Nat)
  | connectionError (err : String)
  | otherError (err : String)
deriving DecidableEq

/-- `KaggleKernelCredentials`: target plus the `token` / `expiry` state
inherited from `google.auth.credentials.Credentials` (both `None` at
construction). -/
structure KaggleKernelCredentials where
  target : GcpTarget
  token : Option String
  expiry : Option Nat
deriving DecidableEq

/-- `KaggleKernelCredentials.__init__`: `token` and `expiry` start unset. -/
def KaggleKernelCredentials.fresh (target : GcpTarget) : KaggleKernelCredentials :=
  { target := target, token := none, expiry := none }

/-- The connectivity hint printed by the `ConnectionError` branch of
`refresh`. -/
def connection_hint (t : GcpTarget) : String :=
  "There was a connection error trying to fetch the access token. " ++
    "Please ensure internet is on in order to use the " ++ t.service ++ " Integration."

/-- The settings-sidebar hint printed by the generic failure branch of
`refresh` when the integration is not enabled. -/
def settings_hint (t : GcpTarget) : String :=
  "Please ensure you have selected a " ++ t.service ++
    " account in the Kernels Settings sidebar."

/-- Result of one `KaggleKernelCredentials.refresh` call: the credential state
after the call (unchanged when the vault call raised, since the tuple
assignment only runs after the vault call returns), the raised `RefreshError`
if any, and the diagnostics. -/
structure RefreshOutcome where
  cred : KaggleKernelCredentials
  error : Option RefreshError
  printed : List String
  logged : List String
deriving DecidableEq

/-- `KaggleKernelCredentials.refresh` (lines 57-77): calls the per-target
vault fetch; on success assigns `token` and `expiry` together; on
`ConnectionError` logs, prints the connectivity hint and raises a
`RefreshError` from the cause; on any other exception logs, prints the
settings hint when `get_integrations()` (re-read from the environment
`integrationsEnv`) does not have the target, and raises a `RefreshError`
from the cause. -/
def KaggleKernelCredentials.refresh (c : KaggleKernelCredentials)
    (vault : GcpTarget → VaultResult) (integrationsEnv : Option String) : RefreshOutcome :=
  match vault c.target with
  | .success tok exp =>
      { cred := { c with token := some tok, expiry := some exp }
        error := none
        printed := []
        logged := [] }
  | .connectionError e =>
      { cred := c
        error := some { message := "Unable to refresh access token due to connection error."
                        cause := e }
        printed := [connection_hint c.target]
        logged := ["Connection error trying to refresh access token: " ++ e] }
  | .otherError e =>
      { cred := c
        error := some { message := "Unable to refresh access token.", cause := e }
        printed :=
          if (get_integrations integrationsEnv).registry.has_integration c.target then []
          else [settings_hint c.target]
        logged :=
          ["Error trying to refresh access token: " ++ e] ++
            (if (get_integrations integrationsEnv).registry.has_integration c.target then []
             else ["No " ++ c.target.service ++ " integration found."]) }

/-- A sequence of `refresh` calls, each with its own vault behaviour and
environment snapshot, tracking only the credential state. -/
def refreshSeq (c : KaggleKernelCredentials) :
    List ((GcpTarget → VaultResult) × Option String) → KaggleKernelCredentials
  | [] => c
  | step :: rest => refreshSeq ((c.refresh step.1 step.2).cred) rest

/-- The spec invariant on a `KaggleKernelCredentials`: `token` and `expiry`
are both unset or both set. -/
def both_or_neither (c : KaggleKernelCredentials) : Prop :=
  c.token.isSome = c.expiry.isSome

/-- Outcome of the call wrapped by `_DataProxyConnection.api_request`: the
underlying `Connection.api_request` either returns a response, raises a
`Forbidden` (permission denied, HTTP 403), or raises some other exception. -/
inductive ApiRequestOutcome
  | ok (response : String)
  | forbidden (err : String)
  | otherError (err : String)
deriving DecidableEq

/-- Result of `_DataProxyConnection.api_request`: the returned-or-reraised
outcome plus the diagnostics emitted on the way. -/
structure ApiRequestResult where
  outcome : ApiRequestOutcome
  printed : List String
  logged : List String
deriving DecidableEq

/-- The hint printed and logged by `_DataProxyConnection.api_request` on a
`Forbidden` response. -/
def forbidden_hint : String :=
  "Permission denied using Kaggle\x27s public BigQuery integration. " ++
    "Did you mean to select a BigQuery account in the Kernels Settings sidebar?"

/-- `_DataProxyConnection.api_request` (lines 90-100): delegates to the
underlying `Connection.api_request`; on `Forbidden` prints the hint, logs it
(`Log.info`) and re-raises the same exception; every other outcome passes
through untouched. -/
def api_request (underlying : ApiRequestOutcome) : ApiRequestResult :=
  match underlying with
  | .ok r => { outcome := .ok r, printed := [], logged := [] }
  | .forbidden e => { outcome := .forbidden e, printed := [forbidden_hint]
                      logged := [forbidden_hint] }
  | .otherError e => { outcome := .otherError e, printed := [], logged := [] }

/-- Caller-supplied or broker-made credentials attached to a client:
`AnonymousCredentials` (with its refresh replaced by a no-op),
`KaggleKernelCredentials` bound to a target, or an opaque explicit credential
object supplied by the caller. -/
inductive Credentials
  | anonymous
  | kaggleKernel (target : GcpTarget)
  | explicitCreds (label : String)
deriving DecidableEq

/-- The replacement `anon_credentials.refresh = lambda *args: None` installed
by `PublicBigqueryClient.__init__`: it leaves the `(token, expiry)` state
untouched. -/
def anonymous_refresh (state : Option String × Option Nat) : Option String × Option Nat :=
  state

/-- The environment values read by the BigQuery routing decision:
`os.environ.get(environment_vars.PROJECT)`, `KAGGLE_KERNEL_INTEGRATIONS`,
and `KAGGLE_DATA_PROXY_PROJECT`. -/
structure BqEnv where
  projectEnv : Option String
  integrationsEnv : Option String
  dataProxyProject : Option String
deriving DecidableEq

/-- Python truthiness of an optional string: `None` and `""` are falsy. -/
def optTruthy : Option String → Bool
  | none => false
  | some s => !s.isEmpty

/-- `arg_project or os.environ.get(environment_vars.PROJECT)` (line 144):
the explicit argument when truthy, else the environment value. -/
def resolved_project (argProject envProject : Option String) : Option String :=
  if optTruthy argProject then argProject else envProject

/-- The `project` keyword finally handed to the vendor constructor: the code
overwrites `kwargs['project']` with the resolved project only when the
resolved project is truthy (lines 148-150), otherwise the original argument
is left in place. -/
def passed_project (argProject envProject : Option String) : Option String :=
  if optTruthy (resolved_project argProject envProject) then
    resolved_project argProject envProject
  else argProject

/-- Python `kwargs.get(key)`: `None` both when the key is absent (outer
`none`) and when it is present with value `None` (`some none`). -/
def kwget {α : Type} (kw : Option (Option α)) : Option α := kw.getD none

/-- The outcome of a BigQuery construction call: a completed
`PublicBigqueryClient` (anonymous credentials, `_DataProxyConnection`
transport, proxy project), a completed vendor client with the given project
and credentials, or a `TypeError` raised while forwarding `**kwargs` into the
vendor constructor (a keyword it already receives explicitly — `got multiple
values for keyword argument`). -/
inductive BqClient
  | publicClient (project : Option String) (creds : Credentials) (proxyTransport : Bool)
  | normalClient (project : Option String) (creds : Option Credentials)
  | typeError
deriving DecidableEq

/-- `PublicBigqueryClient.__init__` (lines 103-118) applied to the kwargs the
broker forwards with `PublicBigqueryClient(*args, **kwargs)` (line 155).
`super().__init__(project=data_proxy_project, credentials=anon_credentials,
*args, **kwargs)` raises `TypeError` at the call site whenever `kwargs`
still holds a `project` or `credentials` key (each would duplicate an
explicit keyword); only otherwise does it complete with the proxy project id
from the environment, `AnonymousCredentials` with a no-op refresh, and a
`_DataProxyConnection` installed as the transport.  (Calls are modelled
through the two keyword arguments the broker inspects; positional `*args`
are not modelled, matching the spec's RoutingContext of two optional named
inputs.) -/
def PublicBigqueryClient (env : BqEnv) (projectKw : Option (Option String))
    (credentialsKw : Option (Option Credentials)) : BqClient :=
  if projectKw.isSome || credentialsKw.isSome then BqClient.typeError
  else BqClient.publicClient env.dataProxyProject Credentials.anonymous true

/-- Result of one routed BigQuery construction call: the client, the
diagnostics, and whether a `KaggleKernelCredentials` was constructed. -/
structure BqCallResult where
  client : BqClient
  printed : List String
  logged : List String
  delegatedCreated : Bool
deriving DecidableEq

/-- `monkeypatch_bq` (lines 138-168), the BigQuery routing decision.  The
`project` and `credentials` keyword arguments are modelled with their key
presence (`Option (Option _)`), since the public branch forwards the whole
`kwargs` dict into `PublicBigqueryClient`; the branch logic itself only uses
the `kwargs.get` views.  It resolves the effective project with Python
truthiness, logs it when truthy, selects the public branch exactly when the
resolved project is `None`, no credentials were supplied and the registry
lacks the BigQuery integration — printing the public-integration message and
then running `PublicBigqueryClient(*args, **kwargs)`, which raises
`TypeError` when a `project` or `credentials` key lingers in `kwargs` — and
otherwise calls the saved vendor constructor with `**kwargs` only (no
duplicate-keyword hazard), filling in a `KaggleKernelCredentials` when the
caller supplied none.  (On the public branch `kwargs['project']` was never
overwritten, because the overwrite at lines 148-150 requires a truthy
resolved project, which forces the else branch.) -/
def monkeypatch_bq (env : BqEnv) (projectKw : Option (Option String))
    (credentialsKw : Option (Option Credentials)) : BqCallResult :=
  let specified_credentials := kwget credentialsKw
  let has_bigquery := (get_integrations env.integrationsEnv).registry.has_bigquery
  let arg_project := kwget projectKw
  let explicit_project_id := resolved_project arg_project env.projectEnv
  let projectLog : List String :=
    if optTruthy explicit_project_id then
      ["Explicit project set to " ++ explicit_project_id.getD ""]
    else []
  if explicit_project_id = none ∧ specified_credentials = none ∧ has_bigquery = false then
    { client := PublicBigqueryClient env projectKw credentialsKw
      printed := ["Using Kaggle\x27s public dataset BigQuery integration."]
      logged := projectLog ++ ["Using Kaggle\x27s public dataset BigQuery integration."]
      delegatedCreated := false }
  else
    { client := BqClient.normalClient (passed_project arg_project env.projectEnv)
        (match specified_credentials with
          | none => some (Credentials.kaggleKernel GcpTarget.BIGQUERY)
          | some c => some c)
      printed :=
        (if specified_credentials = none ∧ has_bigquery = false then
          ["Please ensure you have selected a BigQuery account in the " ++
            "Kernels Settings sidebar."]
         else []) ++
        (if explicit_project_id = none then
          ["Please ensure you specify a project id when creating the client" ++
            " in order to use your BigQuery account."]
         else [])
      logged := projectLog ++
        (if specified_credentials = none then
          ["No credentials specified, using KaggleKernelCredentials."]
         else []) ++
        (if specified_credentials = none ∧ has_bigquery = false then
          ["No bigquery integration found, creating client anyways."]
         else []) ++
        (if explicit_project_id = none then
          ["No project specified while using the unmodified client."]
         else [])
      delegatedCreated := specified_credentials.isNone }

/-- Result of one routed GCS construction call (`monkeypatch_gcs` body). -/
structure GcsCallResult where
  creds : Option Credentials
  logged : List String
  delegatedCreated : Bool
deriving DecidableEq

/-- `monkeypatch_gcs` (lines 192-197): passes caller credentials through
unchanged, otherwise installs a GCS-targeted `KaggleKernelCredentials`, then
calls the saved vendor `storage.Client.__init__`. -/
def monkeypatch_gcs (specified_credentials : Option Credentials) : GcsCallResult :=
  match specified_credentials with
  | none =>
      { creds := some (Credentials.kaggleKernel GcpTarget.GCS)
        logged := ["No credentials specified, using KaggleKernelCredentials."]
        delegatedCreated := true }
  | some c => { creds := some c, logged := [], delegatedCreated := false }

/-- A patchable constructor: the file that defines it
(`inspect.getsourcefile`) and how many broker wrapper layers sit around the
vendor original.  Each wrapper layer runs the broker behaviour (hints,
credential injection) once per call, so `wrapCount` is the number of times
that behaviour fires on a call through the constructor. -/
structure PatchState where
  sourcefile : String
  wrapCount : Nat
deriving DecidableEq

/-- The defining file of everything `kaggle_gcp` creates. -/
def kaggle_gcp_sourcefile : String := "/root/kaggle/kaggle_gcp.py"

/-- Substring containment on character lists (Python `needle in haystack` on
strings): the needle is a prefix of some suffix of the haystack. -/
def substr_in (needle : List Char) : List Char → Bool
  | [] => needle.isEmpty
  | c :: rest => needle.isPrefixOf (c :: rest) || substr_in needle rest

/-- `has_been_monkeypatched` (lines 120-121):
`"kaggle_gcp" in inspect.getsourcefile(method)`. -/
def has_been_monkeypatched (method : PatchState) : Bool :=
  substr_in "kaggle_gcp".toList method.sourcefile.toList

/-- The vendor `bigquery.Client` before any patching. -/
def vendor_bigquery_client : PatchState :=
  { sourcefile := "/site-packages/google/cloud/bigquery/client.py", wrapCount := 0 }

/-- The vendor `storage.Client.__init__` before any patching. -/
def vendor_storage_client_init : PatchState :=
  { sourcefile := "/site-packages/google/cloud/storage/client.py", wrapCount := 0 }

/-- The patch step of `init_bigquery` (lines 123-177) acting on the
`bigquery.Client` constructor: do nothing unless one of the proxy / user
secrets tokens is set, skip when the guard says the constructor is already
the broker lambda, otherwise replace it by the broker lambda (defined in
`kaggle_gcp`) wrapping the previous constructor. -/
def init_bigquery (proxyOrUserTokenSet : Bool) (bigqueryClient : PatchState) :
    PatchState :=
  if !proxyOrUserTokenSet then bigqueryClient
  else if has_been_monkeypatched bigqueryClient then bigqueryClient
  else { sourcefile := kaggle_gcp_sourcefile, wrapCount := bigqueryClient.wrapCount + 1 }

/-- The patch step of `init_gcs` (lines 179-201) acting on
`storage.Client.__init__`: requires the user-secrets token and the GCS
integration, then applies the same guarded wrap. -/
def init_gcs (userSecretsTokenSet : Bool) (integrationsEnv : Option String)
    (storageClientInit : PatchState) : PatchState :=
  if !userSecretsTokenSet then storageClientInit
  else if !(get_integrations integrationsEnv).registry.has_gcs then storageClientInit
  else if has_been_monkeypatched storageClientInit then storageClientInit
  else { sourcefile := kaggle_gcp_sourcefile
         wrapCount := storageClientInit.wrapCount + 1 }

/-! ## Helper lemmas -/

theorem mem_add_integration (k : KernelIntegrations) (s t : GcpTarget) :
    t ∈ (k.add_integration s).integrations ↔ t ∈ k.integrations ∨ t = s := by
  unfold KernelIntegrations.add_integration
  split
  next h =>
    constructor
    · exact Or.inl
    · rintro (h1 | rfl)
      · exact h1
      · exact h
  next h => simp [List.mem_append]

theorem has_integration_iff (k : KernelIntegrations) (t : GcpTarget) :
    k.has_integration t = true ↔ t ∈ k.integrations := by
  simp [KernelIntegrations.has_integration]

theorem foldl_integrations_mem (toks : List String) (acc : GetIntegrationsResult)
    (t : GcpTarget) :
    t ∈ (toks.foldl integrations_step acc).registry.integrations ↔
      t ∈ acc.registry.integrations ∨ ∃ tok ∈ toks, parseTarget tok = some t := by
  induction toks generalizing acc with
  | nil => simp
  | cons tok rest ih =>
    rw [List.foldl_cons, ih]
    unfold integrations_step
    cases hp : parseTarget tok with
    | none => simp [hp]
    | some target =>
      simp only [hp, mem_add_integration, List.exists_mem_cons_iff, Option.some.injEq,
        eq_comm]
      tauto

theorem foldl_integrations_errors (toks : List String) (acc : GetIntegrationsResult) :
    (toks.foldl integrations_step acc).errors =
      acc.errors ++
        (toks.filter (fun tok => (parseTarget tok).isNone)).map unknown_integration_message := by
  induction toks generalizing acc with
  | nil => simp
  | cons tok rest ih =>
    rw [List.foldl_cons, ih]
    unfold integrations_step
    cases hp : parseTarget tok with
    | none => simp [hp, List.filter_cons]
    | some target => simp [hp, List.filter_cons]

theorem refresh_preserves_both_or_neither (c : KaggleKernelCredentials)
    (vault : GcpTarget → VaultResult) (integrationsEnv : Option String)
    (h : both_or_neither c) : both_or_neither (c.refresh vault integrationsEnv).cred := by
  cases hv : vault c.target with
  | success tok exp => simp [KaggleKernelCredentials.refresh, hv, both_or_neither]
  | connectionError e =>
    simpa [KaggleKernelCredentials.refresh, hv, both_or_neither] using h
  | otherError e =>
    simpa [KaggleKernelCredentials.refresh, hv, both_or_neither] using h

theorem refreshSeq_preserves (steps : List ((GcpTarget → VaultResult) × Option String)) :
    ∀ c : KaggleKernelCredentials, both_or_neither c → both_or_neither (refreshSeq c steps) := by
  induction steps with
  | nil => intro c h; exact h
  | cons step rest ih =>
    intro c h
    rw [refreshSeq]
    exact ih _ (refresh_preserves_both_or_neither c step.1 step.2 h)

/-! ## Claim theorems -/

/-- C7: for every value of the environment integrations string (including
absent), parsing is total and never fails: the registry contains exactly the
colon-separated entries that case-insensitively name a known target
(membership observable via `has_integration`), unrecognized entries are
logged and skipped, duplicate additions are idempotent, and an absent string
yields an empty registry. -/
theorem get_integrations_parse_spec (raw : String) (t : GcpTarget) :
    get_integrations none = { registry := { integrations := [] }, errors := [] } ∧
    ((get_integrations (some raw)).registry.has_integration t = true ↔
      ∃ tok ∈ py_split raw ':', parseTarget tok = some t) ∧
    ((get_integrations (some raw)).errors =
      ((py_split raw ':').filter (fun tok => (parseTarget tok).isNone)).map
        unknown_integration_message) ∧
    (∀ (k : KernelIntegrations) (s : GcpTarget),
      (k.add_integration s).add_integration s = k.add_integration s) := by
  refine ⟨rfl, ?_, ?_, ?_⟩
  · rw [show get_integrations (some raw) =
        (py_split raw ':').foldl integrations_step
          { registry := { integrations := [] }, errors := [] } from rfl,
      has_integration_iff, foldl_integrations_mem]
    simp
  · rw [show get_integrations (some raw) =
        (py_split raw ':').foldl integrations_step
          { registry := { integrations := [] }, errors := [] } from rfl,
      foldl_integrations_errors]
    simp
  · intro k s
    by_cases h : s ∈ k.integrations
    · simp [KernelIntegrations.add_integration, h]
    · simp [KernelIntegrations.add_integration, h]

/-- C2: starting from a fresh `KaggleKernelCredentials` (token and expiry
unset), any sequence of `refresh` calls — each with an arbitrary vault
behaviour, including failing ones, and an arbitrary environment snapshot —
leaves the credential with token and expiry either both unset or both set;
no refresh attempt ever sets one without the other. -/
theorem delegated_credential_token_expiry_invariant (t : GcpTarget)
    (steps : List ((GcpTarget → VaultResult) × Option String)) :
    both_or_neither (refreshSeq (KaggleKernelCredentials.fresh t) steps) :=
  refreshSeq_preserves steps (KaggleKernelCredentials.fresh t) rfl

/-- C3: for every target, when the token-vault call inside `refresh` raises a
connection error, `refresh` raises a `RefreshError` whose original cause is
that connection error, exactly one user-facing connectivity hint is printed,
that hint names the target display name, and the credential state is left
unchanged. -/
theorem refresh_connection_error_behaviour (c : KaggleKernelCredentials)
    (integrationsEnv : Option String) (e : String) :
    (c.refresh (fun _ => VaultResult.connectionError e) integrationsEnv).error =
      some { message := "Unable to refresh access token due to connection error."
             cause := e } ∧
    (c.refresh (fun _ => VaultResult.connectionError e) integrationsEnv).printed =
      [connection_hint c.target] ∧
    (∃ a b, connection_hint c.target = a ++ c.target.service ++ b) ∧
    (c.refresh (fun _ => VaultResult.connectionError e) integrationsEnv).cred = c :=
  ⟨rfl, rfl,
    ⟨"There was a connection error trying to fetch the access token. " ++
      "Please ensure internet is on in order to use the ", " Integration.", rfl⟩,
    rfl⟩

/-- C4: for every target, when the token-vault call inside `refresh` raises a
non-connection failure, `refresh` raises a `RefreshError` wrapping that
cause, and the settings-sidebar hint is printed if and only if the registry
parsed from the environment does not have the credential target enabled. -/
theorem refresh_other_error_behaviour (c : KaggleKernelCredentials)
    (integrationsEnv : Option String) (e : String) :
    (c.refresh (fun _ => VaultResult.otherError e) integrationsEnv).error =
      some { message := "Unable to refresh access token.", cause := e } ∧
    (settings_hint c.target ∈
        (c.refresh (fun _ => VaultResult.otherError e) integrationsEnv).printed ↔
      (get_integrations integrationsEnv).registry.has_integration c.target = false) := by
  refine ⟨rfl, ?_⟩
  show settings_hint c.target ∈
      (if (get_integrations integrationsEnv).registry.has_integration c.target then []
       else [settings_hint c.target]) ↔ _
  cases h : (get_integrations integrationsEnv).registry.has_integration c.target <;> simp [h]

/-- C8: every request through `_DataProxyConnection.api_request` whose
underlying call ends in a permission-denied (`Forbidden`) response has the
account-selection hint both printed and logged, and the same error is
re-raised unchanged — never swallowed or replaced. -/
theorem api_request_forbidden_behaviour (e : String) :
    (api_request (ApiRequestOutcome.forbidden e)).outcome = ApiRequestOutcome.forbidden e ∧
    (api_request (ApiRequestOutcome.forbidden e)).printed = [forbidden_hint] ∧
    (api_request (ApiRequestOutcome.forbidden e)).logged = [forbidden_hint] :=
  ⟨rfl, rfl, rfl⟩

theorem has_been_monkeypatched_wrap (n : Nat) :
    has_been_monkeypatched { sourcefile := kaggle_gcp_sourcefile, wrapCount := n } = true :=
  rfl

theorem resolved_project_none_iff (argProject envProject : Option String) :
    resolved_project argProject envProject = none ↔
      optTruthy argProject = false ∧ envProject = none := by
  cases argProject with
  | none => simp [resolved_project, optTruthy]
  | some s =>
    by_cases hs : s.isEmpty
    · simp [resolved_project, optTruthy, hs]
    · simp [resolved_project, optTruthy, hs]

theorem monkeypatch_bq_client_eq (env : BqEnv) (projectKw : Option (Option String))
    (credentialsKw : Option (Option Credentials)) :
    (monkeypatch_bq env projectKw credentialsKw).client =
      if resolved_project (kwget projectKw) env.projectEnv = none ∧
          kwget credentialsKw = none ∧
          (get_integrations env.integrationsEnv).registry.has_bigquery = false then
        PublicBigqueryClient env projectKw credentialsKw
      else
        BqClient.normalClient (passed_project (kwget projectKw) env.projectEnv)
          (match kwget credentialsKw with
            | none => some (Credentials.kaggleKernel GcpTarget.BIGQUERY)
            | some c => some c) := by
  by_cases h : resolved_project (kwget projectKw) env.projectEnv = none ∧
      kwget credentialsKw = none ∧
      (get_integrations env.integrationsEnv).registry.has_bigquery = false
  · simp [monkeypatch_bq, h]
  · simp [monkeypatch_bq, h]

/-- C1 (amended): a BigQuery construction call selects the public/anonymous
branch if and only if the resolved project is `None`, no explicit credentials
were supplied and the registry lacks the BigQuery integration; when selected,
a `PublicBigqueryClient` — anonymous credentials with a no-op refresh, proxy
transport, environment proxy project — is completed if and only if the call
carried no lingering `project` or `credentials` keyword (otherwise the
`**kwargs` forwarding raises `TypeError`); in every other case a non-public
vendor client is constructed and no `PublicBigqueryClient` is created. -/
theorem monkeypatch_bq_public_routing_amended (env : BqEnv)
    (projectKw : Option (Option String)) (credentialsKw : Option (Option Credentials)) :
    (((monkeypatch_bq env projectKw credentialsKw).client =
          BqClient.publicClient env.dataProxyProject Credentials.anonymous true ∨
        (monkeypatch_bq env projectKw credentialsKw).client = BqClient.typeError) ↔
      (resolved_project (kwget projectKw) env.projectEnv = none ∧
        kwget credentialsKw = none ∧
        (get_integrations env.integrationsEnv).registry.has_bigquery = false)) ∧
    ((monkeypatch_bq env projectKw credentialsKw).client =
        BqClient.publicClient env.dataProxyProject Credentials.anonymous true ↔
      ((resolved_project (kwget projectKw) env.projectEnv = none ∧
        kwget credentialsKw = none ∧
        (get_integrations env.integrationsEnv).registry.has_bigquery = false) ∧
        projectKw = none ∧ credentialsKw = none)) ∧
    ((∃ p c, (monkeypatch_bq env projectKw credentialsKw).client =
        BqClient.normalClient p c) ↔
      ¬(resolved_project (kwget projectKw) env.projectEnv = none ∧
        kwget credentialsKw = none ∧
        (get_integrations env.integrationsEnv).registry.has_bigquery = false)) ∧
    (resolved_project (kwget projectKw) env.projectEnv = none ↔
      optTruthy (kwget projectKw) = false ∧ env.projectEnv = none) ∧
    (∀ s, anonymous_refresh s = s) := by
  have hc := monkeypatch_bq_client_eq env projectKw credentialsKw
  by_cases h : resolved_project (kwget projectKw) env.projectEnv = none ∧
      kwget credentialsKw = none ∧
      (get_integrations env.integrationsEnv).registry.has_bigquery = false
  · rw [if_pos h] at hc
    refine ⟨?_, ?_, ?_, resolved_project_none_iff _ _, fun s => rfl⟩ <;>
      rcases projectKw with _ | pv <;> rcases credentialsKw with _ | cv <;>
        simp_all [PublicBigqueryClient, kwget]
  · rw [if_neg h] at hc
    refine ⟨?_, ?_, ?_, resolved_project_none_iff _ _, fun s => rfl⟩ <;> simp_all

/-- Counterexample to C1 as stated: at `project=""` with no environment
default, no credentials and the BigQuery integration disabled, the claim
condition for public routing holds, yet no `PublicBigqueryClient` is built —
the `**kwargs` forwarding in `PublicBigqueryClient.__init__` raises
`TypeError` (duplicate `project` keyword) — so the claimed equivalence fails
on the program. -/
theorem monkeypatch_bq_public_routing_counterexample :
    (resolved_project (kwget (some (some ""))) none = none ∧
      kwget (none : Option (Option Credentials)) = none ∧
      (get_integrations none).registry.has_bigquery = false) ∧
    (monkeypatch_bq ⟨none, none, some "proxy-project"⟩ (some (some "")) none).client =
      BqClient.typeError := by
  refine ⟨⟨by decide, by decide, by decide⟩, by decide⟩

/-- C6: when the caller supplies explicit (non-`None`) credentials, they are
passed to the underlying constructor unchanged — for BigQuery and for GCS —
and no `KaggleKernelCredentials` is constructed, regardless of registry
state and project argument (absent, present, or any value). -/
theorem explicit_credentials_bypass (env : BqEnv) (projectKw : Option (Option String))
    (c : Credentials) :
    (monkeypatch_bq env projectKw (some (some c))).client =
      BqClient.normalClient (passed_project (kwget projectKw) env.projectEnv) (some c) ∧
    (monkeypatch_bq env projectKw (some (some c))).delegatedCreated = false ∧
    (monkeypatch_gcs (some c)).creds = some c ∧
    (monkeypatch_gcs (some c)).delegatedCreated = false := by
  refine ⟨?_, ?_, rfl, rfl⟩ <;> simp [monkeypatch_bq, kwget]

/-- C9 evaluated at a failing input: `bigquery.Client(credentials=None)` with
no project argument, no environment project and no BigQuery integration is a
missing-project-and-credentials combination, yet construction raises
`TypeError` (duplicate `credentials` keyword) inside broker code —
`PublicBigqueryClient.__init__`, not the vendor constructor — right after
printing the public-integration message, contradicting the never-raises
contract of the claim. -/
theorem routing_type_error_at_failing_input :
    (monkeypatch_bq ⟨none, none, some "kaggle-data-proxy"⟩ none (some none)).client =
      BqClient.typeError ∧
    (monkeypatch_bq ⟨none, none, some "kaggle-data-proxy"⟩ none (some none)).printed =
      ["Using Kaggle\x27s public dataset BigQuery integration."] := by
  refine ⟨by decide, by decide⟩

/-- Counterexample to C10 as stated: at the claim's own input — `project=""`,
no environment default, no credentials, integration disabled — the program
prints the public-integration message and then raises `TypeError` (duplicate
`project` keyword) in `PublicBigqueryClient.__init__`; no public client is
completed, while the same call with the project argument truly absent does
complete one, so `""` is observably not treated like an absent project. -/
theorem empty_project_argument_counterexample :
    (monkeypatch_bq ⟨none, none, some "kaggle-data-proxy"⟩ (some (some "")) none).client =
      BqClient.typeError ∧
    (monkeypatch_bq ⟨none, none, some "kaggle-data-proxy"⟩ (some (some "")) none).printed =
      ["Using Kaggle\x27s public dataset BigQuery integration."] ∧
    (monkeypatch_bq ⟨none, none, some "kaggle-data-proxy"⟩ none none).client =
      BqClient.publicClient (some "kaggle-data-proxy") Credentials.anonymous true := by
  refine ⟨by decide, by decide, by decide⟩

/-- C10 (amended): an empty-string project argument is falsy, so the project
resolution falls back to the environment default (truthiness test, not a
`None` test); with no environment default, no credentials and no BigQuery
integration the public branch is still selected and its message printed, but
— unlike a truly absent project argument, which completes a
`PublicBigqueryClient` — the lingering `project` keyword makes the
`**kwargs` forwarding raise `TypeError`, so no public client is completed. -/
theorem empty_project_argument_amended (env : BqEnv)
    (hProj : env.projectEnv = none)
    (hBq : (get_integrations env.integrationsEnv).registry.has_bigquery = false) :
    resolved_project (kwget (some (some ""))) env.projectEnv = env.projectEnv ∧
    (monkeypatch_bq env (some (some "")) none).printed =
      ["Using Kaggle\x27s public dataset BigQuery integration."] ∧
    (monkeypatch_bq env (some (some "")) none).client = BqClient.typeError ∧
    (monkeypatch_bq env none none).client =
      BqClient.publicClient env.dataProxyProject Credentials.anonymous true := by
  have h0 : resolved_project (kwget (some (some ""))) env.projectEnv = env.projectEnv := rfl
  have h1 : resolved_project (some "") env.projectEnv = none := h0.trans hProj
  have h2 : resolved_project none env.projectEnv = none := by
    simpa [resolved_project, optTruthy] using hProj
  refine ⟨h0, ?_, ?_, ?_⟩
  · simp [monkeypatch_bq, kwget, h1, hBq]
  · simp [monkeypatch_bq, PublicBigqueryClient, kwget, h1, hBq]
  · simp [monkeypatch_bq, PublicBigqueryClient, kwget, h2, hBq]

/-- Witness for the amended C10 theorem at a concrete environment. -/
theorem empty_project_argument_amended_witness :
    resolved_project (kwget (some (some ""))) none = none ∧
    (monkeypatch_bq ⟨none, none, some "data-proxy-project"⟩ (some (some "")) none).printed =
      ["Using Kaggle\x27s public dataset BigQuery integration."] ∧
    (monkeypatch_bq ⟨none, none, some "data-proxy-project"⟩ (some (some "")) none).client =
      BqClient.typeError ∧
    (monkeypatch_bq ⟨none, none, some "data-proxy-project"⟩ none none).client =
      BqClient.publicClient (some "data-proxy-project") Credentials.anonymous true :=
  empty_project_argument_amended ⟨none, none, some "data-proxy-project"⟩ rfl rfl

/-- C5: the patch step of `init_bigquery` / `init_gcs` is idempotent — the
second run sees through `has_been_monkeypatched` that the constructor is
already the broker wrapper and skips — and two runs over the vendor
constructor leave exactly one wrapper layer, so a call through the final
constructor runs the added broker behaviour exactly once. -/
theorem init_patch_guard_idempotent :
    (∀ (b : Bool) (s : PatchState),
      init_bigquery b (init_bigquery b s) = init_bigquery b s) ∧
    (∀ (u : Bool) (i : Option String) (s : PatchState),
      init_gcs u i (init_gcs u i s) = init_gcs u i s) ∧
    (init_bigquery true vendor_bigquery_client).wrapCount = 1 ∧
    has_been_monkeypatched (init_bigquery true vendor_bigquery_client) = true ∧
    (init_gcs true (some "gcs") vendor_storage_client_init).wrapCount = 1 := by
  refine ⟨?_, ?_, by decide, by decide, by decide⟩
  · intro b s
    cases b with
    | false => rfl
    | true =>
      by_cases h : has_been_monkeypatched s = true
      · simp [init_bigquery, h]
      · simp [init_bigquery, h, has_been_monkeypatched_wrap]
  · intro u i s
    cases u with
    | false => rfl
    | true =>
      by_cases hg : (get_integrations i).registry.has_gcs = true
      · by_cases h : has_been_monkeypatched s = true
        · simp [init_gcs, hg, h]
        · simp [init_gcs, hg, h, has_been_monkeypatched_wrap]
      · simp [init_gcs, hg]
